import Mathlib

/-!
# Verification of the Terminal-Portfolio-ANTEC core

Shallow embedding of the repository's auth session store (AuthContext reducer
and its signup/login/logout actions), the credential client's local storage
effects, the prompt manager, the sequential form collector with password
masking, the signup client-side validation, and the terminal input dispatcher
(`TerminalPortfolio.jsx` `onData` handler with history and autocomplete).

Conventions: JS strings are Lean `String`s, JS objects used as string maps are
association lists, `localStorage` is a record of `Option` fields, callbacks are
recorded as explicit firing events instead of being invoked, and the single
`onComplete may throw` behaviour relevant to the form collector is a boolean
parameter threaded through the collector's step functions.  Terminal writes are
collected into a `List String` of the exact payloads passed to
`terminal.write`; `terminal.clear()` is a display-only effect and produces no
payload.
-/

namespace Antec

/-! ## Auth Session Store (AuthContext.jsx, `src/unnamed/part_001`)

The store state mirrors `initialState` and the `authReducer` switch; the
`AUTH_STATES` string constants become the `AuthPhase` enumeration. -/

/-- The `AUTH_STATES` constants from the shared package:
`unauthenticated`, `authenticating`, `authenticated`, `error`. -/
inductive AuthPhase
  | unauthenticated
  | authenticating
  | authenticated
  | error
deriving DecidableEq, Repr

/-- A stored user object (`{_id, username, email}` as used by the prompt). -/
structure User where
  id : String
  username : String
  email : String
deriving DecidableEq, Repr

/-- The `AUTH_ACTIONS` dispatched to the reducer.  `setUser`'s payload is the
user object (possibly absent, matching a falsy payload in JS). -/
inductive AuthAction
  | setLoading (payload : Bool)
  | setUser (payload : Option User)
  | setError (payload : String)
  | clearError
  | logout
  | reset
deriving DecidableEq, Repr

/-- The reducer state `{user, isAuthenticated, loading, error, authState}`. -/
structure AuthState where
  user : Option User
  isAuthenticated : Bool
  loading : Bool
  error : Option String
  authState : AuthPhase
deriving DecidableEq, Repr

/-- `initialState` from AuthContext. -/
def initialState : AuthState :=
  { user := none
    isAuthenticated := false
    loading := false
    error := none
    authState := AuthPhase.unauthenticated }

/-- The `authReducer` switch, case by case.  `SET_LOADING` moves the phase to
`authenticating` only when the payload is true; `CLEAR_ERROR` recomputes the
phase from user presence; `LOGOUT` and `RESET` return `initialState` (the
`LOGOUT` case spreads `initialState` and re-sets the same phase). -/
def authReducer (state : AuthState) : AuthAction → AuthState
  | AuthAction.setLoading payload =>
      { state with
        loading := payload
        error := none
        authState := if payload then AuthPhase.authenticating else state.authState }
  | AuthAction.setUser payload =>
      { state with
        user := payload
        isAuthenticated := payload.isSome
        loading := false
        error := none
        authState := if payload.isSome then AuthPhase.authenticated
                     else AuthPhase.unauthenticated }
  | AuthAction.setError payload =>
      { state with
        error := some payload
        loading := false
        authState := AuthPhase.error }
  | AuthAction.clearError =>
      { state with
        error := none
        authState := if state.user.isSome then AuthPhase.authenticated
                     else AuthPhase.unauthenticated }
  | AuthAction.logout =>
      { initialState with authState := AuthPhase.unauthenticated }
  | AuthAction.reset => initialState

/-- The synchronous dispatch sequence at the top of `signup(userData)`:
`dispatch(SET_LOADING, true)` followed by `dispatch(CLEAR_ERROR)`,
both applied before the `authClient.signup` network call resolves. -/
def signupSyncDispatches (s : AuthState) : AuthState :=
  authReducer (authReducer s (AuthAction.setLoading true)) AuthAction.clearError

/-- The synchronous dispatch sequence at the top of `login(credentials)`:
identical to the signup one. -/
def loginSyncDispatches (s : AuthState) : AuthState :=
  authReducer (authReducer s (AuthAction.setLoading true)) AuthAction.clearError

/-! ## Credential client local storage (`src/unnamed/part_007`) and logout -/

/-- The process-local persisted credential: `localStorage` keys
`antec_auth_token` and `antec_user`. -/
structure LocalStore where
  token : Option String
  userData : Option User
deriving DecidableEq, Repr

/-- `AuthClient.clearAuthData()`: removes both keys. -/
def clearAuthData (_ : LocalStore) : LocalStore :=
  { token := none, userData := none }

/-- The success path of the context `login` function: the synchronous
dispatches, then `authClient.login` resolves successfully with a user and a
token (the client stores both), then `storeUser` and `dispatch(SET_USER)`. -/
def loginSuccess (u : User) (tok : String) (s : AuthState) (_store : LocalStore) :
    AuthState × LocalStore :=
  let s1 := loginSyncDispatches s
  let store1 : LocalStore := { token := some tok, userData := some u }
  (authReducer s1 (AuthAction.setUser (some u)), store1)

/-- The context `logout` function: `dispatch(SET_LOADING, true)`, a best-effort
`authClient.logout()` whose failure is swallowed (the `remoteOk` flag records
the remote outcome and is deliberately unused), then in the `finally` block
`clearAuthData()` and `dispatch(LOGOUT)`. -/
def logoutModel (s : AuthState) (store : LocalStore) (_remoteOk : Bool) :
    AuthState × LocalStore :=
  let s1 := authReducer s (AuthAction.setLoading true)
  (authReducer s1 AuthAction.logout, clearAuthData store)

/-! ## Prompt manager (`src/apps/web/src/utils/promptManager.js`) -/

/-- `PromptManager.getPlainPrompt()`: `"<username>@antec:~$ "` when the auth
context is authenticated with a user attached, else `"guest@antec:~$ "`. -/
def getPlainPrompt (s : AuthState) : String :=
  match s.user with
  | some u => if s.isAuthenticated then u.username ++ "@antec:~$ " else "guest@antec:~$ "
  | none => "guest@antec:~$ "

/-! ## C1 theorems -/

/-- C1, counterexample: starting from the initial store state, running the
synchronous dispatch sequence of `signup`/`login` (`SET_LOADING true` then
`CLEAR_ERROR`) does NOT leave the lifecycle phase at `authenticating`: the
`CLEAR_ERROR` case recomputes the phase from user presence and lands on
`unauthenticated`. -/
theorem signup_sync_phase_not_authenticating :
    (signupSyncDispatches initialState).authState ≠ AuthPhase.authenticating ∧
    (signupSyncDispatches initialState).authState = AuthPhase.unauthenticated ∧
    (loginSyncDispatches initialState).authState ≠ AuthPhase.authenticating := by
  decide

/-- C1, amended: after the first dispatch (`SET_LOADING true`) the phase is
`authenticating`, but the second dispatch (`CLEAR_ERROR`) of the same
synchronous sequence resets the phase to `authenticated` when a user is
attached and `unauthenticated` otherwise; the `loading` flag stays true until
the network call settles. -/
theorem signup_login_sync_phase (s : AuthState) :
    (authReducer s (AuthAction.setLoading true)).authState = AuthPhase.authenticating ∧
    (signupSyncDispatches s).authState =
      (if s.user.isSome then AuthPhase.authenticated else AuthPhase.unauthenticated) ∧
    (signupSyncDispatches s).loading = true ∧
    (loginSyncDispatches s).authState =
      (if s.user.isSome then AuthPhase.authenticated else AuthPhase.unauthenticated) := by
  refine ⟨rfl, ?_, rfl, ?_⟩ <;>
    simp [signupSyncDispatches, loginSyncDispatches, authReducer]

/-! ## C5 theorems -/

/-- C5: a logout after a successful login unconditionally (for either remote
outcome) returns the store to `unauthenticated` with the identity cleared and
both persisted credential keys erased, so the plain prompt is restored to the
exact guest prompt that was present before the login. -/
theorem login_logout_roundtrip (s : AuthState) (store : LocalStore) (u : User)
    (tok : String) (remoteOk : Bool)
    (h : getPlainPrompt s = "guest@antec:~$ ") :
    ((logoutModel (loginSuccess u tok s store).1 (loginSuccess u tok s store).2
        remoteOk).1).authState = AuthPhase.unauthenticated ∧
    ((logoutModel (loginSuccess u tok s store).1 (loginSuccess u tok s store).2
        remoteOk).1).user = none ∧
    ((logoutModel (loginSuccess u tok s store).1 (loginSuccess u tok s store).2
        remoteOk).2).token = none ∧
    ((logoutModel (loginSuccess u tok s store).1 (loginSuccess u tok s store).2
        remoteOk).2).userData = none ∧
    getPlainPrompt ((logoutModel (loginSuccess u tok s store).1
        (loginSuccess u tok s store).2 remoteOk).1) = getPlainPrompt s := by
  refine ⟨rfl, rfl, rfl, rfl, ?_⟩
  rw [h]
  rfl

/-- C5 witness: the round trip at the initial (guest) state with user `bob`. -/
theorem login_logout_roundtrip_witness :
    ((logoutModel
        (loginSuccess ⟨"1", "bob", "bob@x.com"⟩ "tok" initialState ⟨none, none⟩).1
        (loginSuccess ⟨"1", "bob", "bob@x.com"⟩ "tok" initialState ⟨none, none⟩).2
        false).1).authState = AuthPhase.unauthenticated ∧
    ((logoutModel
        (loginSuccess ⟨"1", "bob", "bob@x.com"⟩ "tok" initialState ⟨none, none⟩).1
        (loginSuccess ⟨"1", "bob", "bob@x.com"⟩ "tok" initialState ⟨none, none⟩).2
        false).1).user = none ∧
    ((logoutModel
        (loginSuccess ⟨"1", "bob", "bob@x.com"⟩ "tok" initialState ⟨none, none⟩).1
        (loginSuccess ⟨"1", "bob", "bob@x.com"⟩ "tok" initialState ⟨none, none⟩).2
        false).2).token = none ∧
    ((logoutModel
        (loginSuccess ⟨"1", "bob", "bob@x.com"⟩ "tok" initialState ⟨none, none⟩).1
        (loginSuccess ⟨"1", "bob", "bob@x.com"⟩ "tok" initialState ⟨none, none⟩).2
        false).2).userData = none ∧
    getPlainPrompt ((logoutModel
        (loginSuccess ⟨"1", "bob", "bob@x.com"⟩ "tok" initialState ⟨none, none⟩).1
        (loginSuccess ⟨"1", "bob", "bob@x.com"⟩ "tok" initialState ⟨none, none⟩).2
        false).1) = getPlainPrompt initialState :=
  login_logout_roundtrip initialState ⟨none, none⟩ ⟨"1", "bob", "bob@x.com"⟩ "tok"
    false rfl

/-! ## PasswordInput (`src/unnamed/part_000`, class `PasswordInput`)

Standalone model of the password masking sub-handler with abstract callbacks.
`handleInput` returns the state of the object at the moment control leaves the
handler; in the source every mutation of `this.password` / `this.isActive`
happens strictly BEFORE the `onComplete` / `onCancel` callback is invoked, so
the returned state is also the state the callback observes.  The effect
component records which callback (if any) was invoked and with what argument;
the final `Bool` is the handler's handled/not-handled return value. -/

/-- PasswordInput fields: the masking buffer, the active flag, and whether the
`onComplete` / `onCancel` callbacks are non-null. -/
structure PwInput where
  password : String
  isActive : Bool
  hasOnComplete : Bool
  hasOnCancel : Bool
deriving DecidableEq, Repr

/-- A callback invocation performed by `PasswordInput.handleInput`. -/
inductive PwEffect
  | complete (pwd : String)
  | cancel
deriving DecidableEq, Repr

/-- `PasswordInput.handleInput(data)`, branching on `data.charCodeAt(0)`:
Enter (13) completes, Backspace (127) deletes one char, Ctrl+C (3) cancels,
Escape (27) is swallowed, printable characters (32..126) are appended and
masked. -/
def PwInput.handleInput (s : PwInput) (c : Char) : PwInput × Option PwEffect × Bool :=
  if s.isActive = false then (s, none, false)
  else
    let code := c.toNat
    if code = 13 then
      let pwd := s.password
      let s1 := { s with isActive := false, password := "" }
      (s1, if s.hasOnComplete then some (PwEffect.complete pwd) else none, true)
    else if code = 127 then
      if s.password.length > 0 then
        ({ s with password := s.password.dropRight 1 }, none, true)
      else (s, none, true)
    else if code = 3 then
      let s1 := { s with isActive := false, password := "" }
      (s1, if s.hasOnCancel then some PwEffect.cancel else none, true)
    else if code = 27 then (s, none, true)
    else if 32 ≤ code ∧ code ≤ 126 then
      ({ s with password := s.password.push c }, none, true)
    else (s, none, false)

/-! ## C9 theorems -/

/-- C9: in an active password field, Enter (complete) and Ctrl+C (cancel) both
reset the masking buffer to the empty string before the callback is invoked:
the state returned by `handleInput` — which is the state in effect when
`onComplete` / `onCancel` runs — has `password = ""`, and the plaintext escapes
the object only as the argument of the single `complete` effect. -/
theorem password_buffer_cleared_on_complete_and_cancel (s : PwInput)
    (h : s.isActive = true) :
    (PwInput.handleInput s (Char.ofNat 13)).1.password = "" ∧
    (PwInput.handleInput s (Char.ofNat 13)).1.isActive = false ∧
    (PwInput.handleInput s (Char.ofNat 13)).2.1 =
      (if s.hasOnComplete then some (PwEffect.complete s.password) else none) ∧
    (PwInput.handleInput s (Char.ofNat 3)).1.password = "" ∧
    (PwInput.handleInput s (Char.ofNat 3)).1.isActive = false ∧
    (PwInput.handleInput s (Char.ofNat 3)).2.1 =
      (if s.hasOnCancel then some PwEffect.cancel else none) := by
  simp [PwInput.handleInput, h]

/-- C9 witness: a concrete active field holding plaintext `hunter22`. -/
theorem password_buffer_cleared_witness :
    (PwInput.handleInput ⟨"hunter22", true, true, true⟩ (Char.ofNat 13)).1.password = "" ∧
    (PwInput.handleInput ⟨"hunter22", true, true, true⟩ (Char.ofNat 13)).1.isActive = false ∧
    (PwInput.handleInput ⟨"hunter22", true, true, true⟩ (Char.ofNat 13)).2.1 =
      (if true then some (PwEffect.complete "hunter22") else none) ∧
    (PwInput.handleInput ⟨"hunter22", true, true, true⟩ (Char.ofNat 3)).1.password = "" ∧
    (PwInput.handleInput ⟨"hunter22", true, true, true⟩ (Char.ofNat 3)).1.isActive = false ∧
    (PwInput.handleInput ⟨"hunter22", true, true, true⟩ (Char.ofNat 3)).2.1 =
      (if true then some PwEffect.cancel else none) :=
  password_buffer_cleared_on_complete_and_cancel ⟨"hunter22", true, true, true⟩ rfl

/-! ## SequentialFormHandler (`src/unnamed/part_000`, class `SequentialFormHandler`)

The collector owns an embedded `PasswordInput` whose callbacks are the form's
own `handleFieldComplete` / `handleCancel` closures; the closure captures the
field object prompted, so the captured field name is stored next to the
password state (`callbacks = some name` iff `passwordInput.start` wired the
closures for field `name`).  The form-level `onComplete` / `onCancel` pair is
the single `callbacksSet` flag, since `start` installs both together (the
registered callbacks in authCommands.js are always functions).

`completeForm` invokes `onComplete` and only afterwards calls `stop()`; the
source has no try/finally there, so a throwing `onComplete` skips the
`stop()`.  The boolean parameter `th` models "the registered `onComplete`
throws when invoked"; `onCancel` (the `cancelAuthCommand` closure) is modelled
as returning normally.  Firings are accumulated instead of invoked. -/

/-- A field definition `{name, prompt, type}` as produced by
`passwordUtils.createSignupFields` / `createLoginFields`. -/
structure Field where
  name : String
  promptLabel : String
  type : String
deriving DecidableEq, Repr

/-- The embedded `PasswordInput` as wired by the form: `callbacks` holds the
captured field name when `passwordInput.start` was called for that field, and
`none` after `passwordInput.stop()`. -/
structure FormPwd where
  password : String
  isActive : Bool
  callbacks : Option String
deriving DecidableEq, Repr

/-- The password input after `stop()` (or as freshly constructed). -/
def pwdStopped : FormPwd := { password := "", isActive := false, callbacks := none }

/-- Collector state: `{fields, currentFieldIndex, formData, isActive}` plus the
callback pair and the embedded password input. -/
structure FormState where
  fields : List Field
  currentFieldIndex : Nat
  formData : List (String × String)
  isActive : Bool
  callbacksSet : Bool
  pwd : FormPwd
deriving DecidableEq, Repr

/-- A callback firing at the form level. -/
inductive Firing
  | complete (data : List (String × String))
  | cancel
deriving DecidableEq, Repr

/-- JS object property assignment `formData[name] = value` on an object kept as
an insertion-ordered association list: overwrite in place or append. -/
def setField (m : List (String × String)) (k v : String) : List (String × String) :=
  if m.any (fun p => p.1 = k) then
    m.map (fun p => if p.1 = k then (k, v) else p)
  else m ++ [(k, v)]

/-- `SequentialFormHandler.stop()`: deactivate, stop the password input, and
discard fields, index, data and callbacks.  Every component is overwritten, so
the result is one fixed state. -/
def stopForm (s : FormState) : FormState :=
  { s with
    isActive := false
    pwd := pwdStopped
    fields := []
    currentFieldIndex := 0
    formData := []
    callbacksSet := false }

/-- The state `stop()` always produces. -/
def inertForm : FormState :=
  { fields := []
    currentFieldIndex := 0
    formData := []
    isActive := false
    callbacksSet := false
    pwd := pwdStopped }

/-- `completeForm()`: clear `isActive`, snapshot the data, invoke `onComplete`
if present, then `stop()` — skipped when `onComplete` throws (`th = true`),
because the source has no try/finally around the callback. -/
def completeForm (th : Bool) (s : FormState) : FormState × List Firing :=
  let s1 := { s with isActive := false }
  if s1.callbacksSet then
    if th then (s1, [Firing.complete s1.formData])
    else (stopForm s1, [Firing.complete s1.formData])
  else (stopForm s1, [])

/-- `handleCancel()`: write `^C`, invoke `onCancel` if present, then `stop()`. -/
def handleCancel (s : FormState) : FormState × List Firing :=
  if s.callbacksSet then (stopForm s, [Firing.cancel])
  else (stopForm s, [])

/-- `promptCurrentField()`: past the last field, complete the form; otherwise
write the label, and for a password field start the password input with the
form's closures (capturing this field).  Text fields await the dispatcher. -/
def promptCurrentField (th : Bool) (s : FormState) : FormState × List Firing :=
  if s.fields.length ≤ s.currentFieldIndex then completeForm th s
  else
    match s.fields[s.currentFieldIndex]? with
    | some f =>
        if f.type = "password" then
          ({ s with pwd := { password := "", isActive := true, callbacks := some f.name } },
           [])
        else (s, [])
    | none => (s, [])

/-- `handleFieldComplete(fieldName, value)`: record the value, advance the
index, write a newline, and prompt the next field. -/
def handleFieldComplete (th : Bool) (fieldName value : String) (s : FormState) :
    FormState × List Firing :=
  promptCurrentField th
    { s with
      formData := setField s.formData fieldName value
      currentFieldIndex := s.currentFieldIndex + 1 }

/-- `handleRegularFieldComplete(value)`: ignore when inactive or out of range;
for a non-password current field, complete it with the dispatcher's value. -/
def handleRegularFieldComplete (th : Bool) (value : String) (s : FormState) :
    FormState × List Firing :=
  if s.isActive = false ∨ s.fields.length ≤ s.currentFieldIndex then (s, [])
  else
    match s.fields[s.currentFieldIndex]? with
    | some f => if f.type = "password" then (s, []) else handleFieldComplete th f.name value s
    | none => (s, [])

/-- `SequentialFormHandler.handleInput(data)`: inactive forms ignore input;
with the password input active, delegate to `PasswordInput.handleInput` whose
Enter/Ctrl+C branches clear the buffer and then invoke the form's captured
closures; otherwise only Ctrl+C (cancel) is handled. -/
def formHandleInput (th : Bool) (c : Char) (s : FormState) :
    FormState × List Firing × Bool :=
  if s.isActive = false then (s, [], false)
  else if s.pwd.isActive then
    let code := c.toNat
    if code = 13 then
      let pwd := s.pwd.password
      let s1 := { s with pwd := { s.pwd with isActive := false, password := "" } }
      match s.pwd.callbacks with
      | some fieldName =>
          let r := handleFieldComplete th fieldName pwd s1
          (r.1, r.2, true)
      | none => (s1, [], true)
    else if code = 127 then
      if s.pwd.password.length > 0 then
        ({ s with pwd := { s.pwd with password := s.pwd.password.dropRight 1 } }, [], true)
      else (s, [], true)
    else if code = 3 then
      let s1 := { s with pwd := { s.pwd with isActive := false, password := "" } }
      match s.pwd.callbacks with
      | some _ =>
          let r := handleCancel s1
          (r.1, r.2, true)
      | none => (s1, [], true)
    else if code = 27 then (s, [], true)
    else if 32 ≤ code ∧ code ≤ 126 then
      ({ s with pwd := { s.pwd with password := s.pwd.password.push c } }, [], true)
    else (s, [], false)
  else
    if c.toNat = 3 then
      let r := handleCancel s
      (r.1, r.2, true)
    else (s, [], false)

/-- The external events the terminal feeds into one form after `start`:
keystrokes routed to `handleInput`, and text-field completions routed to
`handleRegularFieldComplete`. -/
inductive FormEv
  | input (c : Char)
  | regularComplete (value : String)
deriving DecidableEq, Repr

/-- One event against the collector (the handled/not-handled flag dropped). -/
def formStep (th : Bool) (s : FormState) : FormEv → FormState × List Firing
  | FormEv.input c => ((formHandleInput th c s).1, (formHandleInput th c s).2.1)
  | FormEv.regularComplete v => handleRegularFieldComplete th v s

/-- Run a sequence of events, accumulating the callback firings. -/
def runForm (th : Bool) : FormState → List FormEv → FormState × List Firing
  | s, [] => (s, [])
  | s, e :: es =>
      let r := formStep th s e
      let rest := runForm th r.1 es
      (rest.1, r.2 ++ rest.2)

/-- `start(fields, onComplete, onCancel)`: install the fields and callbacks,
reset index and data, activate, and prompt the first field.  The embedded
password input is in its constructed/stopped state when a form starts. -/
def startForm (th : Bool) (fields : List Field) : FormState × List Firing :=
  promptCurrentField th
    { fields := fields
      currentFieldIndex := 0
      formData := []
      isActive := true
      callbacksSet := true
      pwd := pwdStopped }

/-! ### Collector lemmas -/

/-- `stop()` always lands in the same fully-torn-down state. -/
theorem stopForm_eq (s : FormState) : stopForm s = inertForm := rfl

/-- `completeForm` fires at most one callback and always deactivates. -/
theorem completeForm_spec (th : Bool) (s : FormState) :
    (completeForm th s).2.length ≤ 1 ∧ (completeForm th s).1.isActive = false := by
  simp only [completeForm]
  split_ifs <;> simp [stopForm]

/-- `handleCancel` fires at most one callback and always deactivates. -/
theorem handleCancel_spec (s : FormState) :
    (handleCancel s).2.length ≤ 1 ∧ (handleCancel s).1.isActive = false := by
  unfold handleCancel
  split_ifs <;> simp [stopForm]

/-- `promptCurrentField` fires at most one callback, and any firing leaves the
form deactivated (the only firing branch is `completeForm`). -/
theorem promptCurrentField_spec (th : Bool) (s : FormState) :
    (promptCurrentField th s).2.length ≤ 1 ∧
    ((promptCurrentField th s).2 ≠ [] → (promptCurrentField th s).1.isActive = false) := by
  unfold promptCurrentField
  split
  · exact ⟨(completeForm_spec th s).1, fun _ => (completeForm_spec th s).2⟩
  · split
    · split_ifs <;> simp
    · simp

/-- `handleFieldComplete` fires at most once; a firing deactivates the form. -/
theorem handleFieldComplete_spec (th : Bool) (fieldName value : String) (s : FormState) :
    (handleFieldComplete th fieldName value s).2.length ≤ 1 ∧
    ((handleFieldComplete th fieldName value s).2 ≠ [] →
      (handleFieldComplete th fieldName value s).1.isActive = false) := by
  unfold handleFieldComplete
  exact promptCurrentField_spec th _

/-- `handleRegularFieldComplete` fires at most once; a firing deactivates. -/
theorem handleRegularFieldComplete_spec (th : Bool) (value : String) (s : FormState) :
    (handleRegularFieldComplete th value s).2.length ≤ 1 ∧
    ((handleRegularFieldComplete th value s).2 ≠ [] →
      (handleRegularFieldComplete th value s).1.isActive = false) := by
  unfold handleRegularFieldComplete
  split
  · simp
  · split
    · split_ifs
      · simp
      · exact handleFieldComplete_spec th _ value s
    · simp

/-- `handleInput` fires at most once; a firing deactivates the form. -/
theorem formHandleInput_spec (th : Bool) (c : Char) (s : FormState) :
    (formHandleInput th c s).2.1.length ≤ 1 ∧
    ((formHandleInput th c s).2.1 ≠ [] → (formHandleInput th c s).1.isActive = false) := by
  cases hcb : s.pwd.callbacks with
  | none =>
      simp only [formHandleInput, hcb]
      split_ifs <;>
        first
          | exact ⟨(handleCancel_spec _).1, fun _ => (handleCancel_spec _).2⟩
          | simp
  | some fieldName =>
      simp only [formHandleInput, hcb]
      split_ifs <;>
        first
          | exact ⟨(handleFieldComplete_spec th _ _ _).1,
              fun h => (handleFieldComplete_spec th _ _ _).2 h⟩
          | exact ⟨(handleCancel_spec _).1, fun _ => (handleCancel_spec _).2⟩
          | simp

/-- One event fires at most once; a firing deactivates the form. -/
theorem formStep_spec (th : Bool) (s : FormState) (e : FormEv) :
    (formStep th s e).2.length ≤ 1 ∧
    ((formStep th s e).2 ≠ [] → (formStep th s e).1.isActive = false) := by
  cases e with
  | input c => exact formHandleInput_spec th c s
  | regularComplete v => exact handleRegularFieldComplete_spec th v s

/-- A deactivated collector ignores every event. -/
theorem formStep_of_inactive (th : Bool) (s : FormState) (e : FormEv)
    (h : s.isActive = false) : formStep th s e = (s, []) := by
  cases e with
  | input c => simp [formStep, formHandleInput, h]
  | regularComplete v => simp [formStep, handleRegularFieldComplete, h]

/-- A deactivated collector ignores every event sequence. -/
theorem runForm_of_inactive (th : Bool) (evs : List FormEv) (s : FormState)
    (h : s.isActive = false) : runForm th s evs = (s, []) := by
  induction evs with
  | nil => rfl
  | cons e es ih => simp [runForm, formStep_of_inactive th s e h, ih]

/-- Across any event sequence the collector fires at most one callback. -/
theorem runForm_fires_le_one (th : Bool) (evs : List FormEv) :
    ∀ s : FormState, (runForm th s evs).2.length ≤ 1 := by
  induction evs with
  | nil => intro s; simp [runForm]
  | cons e es ih =>
      intro s
      by_cases hf : (formStep th s e).2 = []
      · simp [runForm, hf]
        exact ih _
      · have hi : (formStep th s e).1.isActive = false := (formStep_spec th s e).2 hf
        simp [runForm, runForm_of_inactive th es _ hi]
        exact (formStep_spec th s e).1

/-- `start` itself fires at most once (only for an empty field list), and such
a firing deactivates the form. -/
theorem startForm_spec (th : Bool) (fields : List Field) :
    (startForm th fields).2.length ≤ 1 ∧
    ((startForm th fields).2 ≠ [] → (startForm th fields).1.isActive = false) := by
  unfold startForm
  exact promptCurrentField_spec th _

/-! ### C2 theorem -/

/-- C2: for one form begun by `start(fields, onComplete, onCancel)`, over ANY
sequence of keystroke and text-field-completion events — and whether or not
the registered `onComplete` throws when invoked (`th`) — the total number of
`onComplete`/`onCancel` firings is at most one; in particular both can never
fire for the same form.  (The registered `onCancel`, `cancelAuthCommand`, is
modelled as returning normally.) -/
theorem form_callbacks_at_most_once (th : Bool) (fields : List Field)
    (evs : List FormEv) :
    ((startForm th fields).2 ++ (runForm th (startForm th fields).1 evs).2).length ≤ 1 := by
  by_cases h0 : (startForm th fields).2 = []
  · simp [h0]
    exact runForm_fires_le_one th evs _
  · have hi : (startForm th fields).1.isActive = false := (startForm_spec th fields).2 h0
    rw [runForm_of_inactive th evs _ hi]
    simp
    exact (startForm_spec th fields).1

/-! ### C4 theorems -/

/-- The two concrete field lists the repo starts forms with
(`passwordUtils.createLoginFields`). -/
def loginFields : List Field :=
  [{ name := "emailOrUsername", promptLabel := "Email or Username", type := "text" },
   { name := "password", promptLabel := "Password", type := "password" }]

/-- `passwordUtils.createSignupFields`. -/
def signupFields : List Field :=
  [{ name := "username", promptLabel := "Username", type := "text" },
   { name := "email", promptLabel := "Email", type := "text" },
   { name := "password", promptLabel := "Password", type := "password" },
   { name := "confirmPassword", promptLabel := "Confirm Password", type := "password" }]

/-- C4, counterexample: in a login form, after completing the first field the
index is 1; the next event is Ctrl+C (cancellation, no restart), after which
`currentFieldIndex` is back to 0 — because `handleCancel` calls `stop()`,
which resets the index.  This refutes "reset to 0 only by a fresh `start()`
call, never by cancellation-without-restart". -/
theorem cancel_resets_index_counterexample :
    ((runForm false (startForm false loginFields).1
        [FormEv.regularComplete "bob"]).1).currentFieldIndex = 1 ∧
    ((runForm false (startForm false loginFields).1
        [FormEv.regularComplete "bob", FormEv.input (Char.ofNat 3)]).1).currentFieldIndex
      = 0 ∧
    ((runForm false (startForm false loginFields).1
        [FormEv.regularComplete "bob", FormEv.input (Char.ofNat 3)]).1).isActive
      = false := by
  decide

/-- `completeForm` either tears the state down completely or keeps the index. -/
theorem completeForm_index (th : Bool) (s : FormState) :
    (completeForm th s).1 = inertForm ∨
    (completeForm th s).1.currentFieldIndex = s.currentFieldIndex := by
  simp only [completeForm]
  split_ifs <;> simp [stopForm_eq]

/-- `promptCurrentField` either tears down completely or keeps the index. -/
theorem promptCurrentField_index (th : Bool) (s : FormState) :
    (promptCurrentField th s).1 = inertForm ∨
    (promptCurrentField th s).1.currentFieldIndex = s.currentFieldIndex := by
  unfold promptCurrentField
  split
  · exact completeForm_index th s
  · split
    · split_ifs <;> simp
    · simp

/-- `handleFieldComplete` either tears down completely or advances the index. -/
theorem handleFieldComplete_index (th : Bool) (fieldName value : String) (s : FormState) :
    (handleFieldComplete th fieldName value s).1 = inertForm ∨
    (handleFieldComplete th fieldName value s).1.currentFieldIndex
      = s.currentFieldIndex + 1 := by
  unfold handleFieldComplete
  exact promptCurrentField_index th _

/-- `handleCancel` always lands in the torn-down state. -/
theorem handleCancel_fst (s : FormState) : (handleCancel s).1 = inertForm := by
  unfold handleCancel
  split_ifs <;> rfl

/-- `handleFieldComplete` never decreases the index, short of teardown. -/
theorem handleFieldComplete_index_ge (th : Bool) (n v : String) (s : FormState) :
    s.currentFieldIndex ≤ (handleFieldComplete th n v s).1.currentFieldIndex ∨
    (handleFieldComplete th n v s).1 = inertForm := by
  rcases handleFieldComplete_index th n v s with h | h
  · exact Or.inr h
  · exact Or.inl (by rw [h]; exact Nat.le_succ _)

/-- `handleRegularFieldComplete` keeps or advances the index, or tears down. -/
theorem handleRegularFieldComplete_index (th : Bool) (v : String) (s : FormState) :
    s.currentFieldIndex ≤ (handleRegularFieldComplete th v s).1.currentFieldIndex ∨
    (handleRegularFieldComplete th v s).1 = inertForm := by
  simp only [handleRegularFieldComplete]
  split
  · simp
  · split
    · rename_i f heq
      split_ifs
      · simp
      · exact handleFieldComplete_index_ge th f.name v s
    · simp

/-- `handleInput` keeps or advances the index, or tears down. -/
theorem formHandleInput_index (th : Bool) (c : Char) (s : FormState) :
    s.currentFieldIndex ≤ (formHandleInput th c s).1.currentFieldIndex ∨
    (formHandleInput th c s).1 = inertForm := by
  cases hcb : s.pwd.callbacks with
  | none =>
      simp only [formHandleInput, hcb]
      split_ifs <;>
        first
          | exact Or.inr (handleCancel_fst _)
          | simp
  | some fieldName =>
      simp only [formHandleInput, hcb]
      split_ifs <;>
        first
          | exact Or.inr (handleCancel_fst _)
          | exact handleFieldComplete_index_ge th fieldName s.pwd.password
              { s with pwd := { password := "", isActive := false,
                                callbacks := some fieldName } }
          | simp

/-- C4, amended: across any single event, `currentFieldIndex` never regresses
— it only stays or advances (by field completion) — except when the step
performs the full `stop()` teardown (triggered by completion or cancellation),
which discards the whole FormSession: the resulting state is exactly the inert
state with index 0, empty fields/data and no callbacks, and only a fresh
`start()` can begin a new form from there. -/
theorem form_index_monotone_or_torn_down (th : Bool) (s : FormState) (e : FormEv) :
    s.currentFieldIndex ≤ (formStep th s e).1.currentFieldIndex ∨
    (formStep th s e).1 = inertForm := by
  cases e with
  | input c => exact formHandleInput_index th c s
  | regularComplete v => exact handleRegularFieldComplete_index th v s

/-! ### C3 theorems -/

/-- C3, counterexample: a login form completed through its final (password)
field with an `onComplete` that throws (`th = true`).  `onComplete` does fire
with the collected values, but because `completeForm` has no try/finally, the
`stop()` after the callback is skipped: `fields`, `currentFieldIndex`,
`formData` (holding the plaintext password) and the callbacks are all
retained, refuting "this discard happens even if `onComplete` throws". -/
theorem complete_throw_retains_state_counterexample :
    (runForm true (startForm true loginFields).1
        [FormEv.regularComplete "bob", FormEv.input 'p', FormEv.input 'w',
         FormEv.input (Char.ofNat 13)]).2
      = [Firing.complete [("emailOrUsername", "bob"), ("password", "pw")]] ∧
    (runForm true (startForm true loginFields).1
        [FormEv.regularComplete "bob", FormEv.input 'p', FormEv.input 'w',
         FormEv.input (Char.ofNat 13)]).1.formData
      = [("emailOrUsername", "bob"), ("password", "pw")] ∧
    (runForm true (startForm true loginFields).1
        [FormEv.regularComplete "bob", FormEv.input 'p', FormEv.input 'w',
         FormEv.input (Char.ofNat 13)]).1.fields = loginFields ∧
    (runForm true (startForm true loginFields).1
        [FormEv.regularComplete "bob", FormEv.input 'p', FormEv.input 'w',
         FormEv.input (Char.ofNat 13)]).1.callbacksSet = true := by
  decide

/-- C3, amended: when the final field completes and the registered `onComplete`
returns normally (`th = false`), `onComplete(collectedValues)` fires exactly
once and the whole collector state is then discarded (the state after the step
is exactly the inert torn-down state).  The discard is NOT exception-safe: a
throwing `onComplete` skips it (see the counterexample). -/
theorem final_field_completion_fires_once_and_discards (fieldName value : String)
    (s : FormState) (hcb : s.callbacksSet = true)
    (hlast : s.fields.length ≤ s.currentFieldIndex + 1) :
    handleFieldComplete false fieldName value s =
      (inertForm, [Firing.complete (setField s.formData fieldName value)]) := by
  unfold handleFieldComplete promptCurrentField completeForm
  simp [hlast, hcb, stopForm_eq]

/-- C3 witness: the final (password) field of a login form whose first field
already collected `bob`. -/
theorem final_field_completion_witness :
    handleFieldComplete false "password" "pw"
      { fields := loginFields, currentFieldIndex := 1,
        formData := [("emailOrUsername", "bob")], isActive := true,
        callbacksSet := true, pwd := { password := "", isActive := false,
                                       callbacks := some "password" } } =
      (inertForm,
       [Firing.complete (setField [("emailOrUsername", "bob")] "password" "pw")]) :=
  final_field_completion_fires_once_and_discards "password" "pw" _ rfl (by decide)

/-! ## Terminal input dispatcher (`src/src/components/TerminalPortfolio.jsx`)

The component's refs `currentLine`, `commandHistory`, `historyIndex` (a JS
number starting at `-1`, so modelled as `Int`) and the `currentTheme` React
state form the dispatcher state.  Terminal output is the list of exact
payloads passed to `terminal.write` (via `writeToTerminal`, which appends
`\r\n` when `newLine` is true); `terminal.clear()` produces no payload.
`window.open` calls are external browser effects outside the model; the
handlers' return strings are kept verbatim. -/

/-- JS `\s` whitespace on the range terminal input can contain (ASCII controls
and NBSP); written out so the kernel can evaluate it. -/
def isJsSpace (c : Char) : Bool :=
  c = ' ' || c = '\t' || c = '\n' || c = '\r' || c.toNat = 11 || c.toNat = 12 ||
    c.toNat = 160

/-- JS `String.prototype.trim()`, list-structural. -/
def jsTrim (s : String) : String :=
  String.mk (((s.toList.dropWhile isJsSpace).reverse.dropWhile isJsSpace).reverse)

/-- JS `split(' ')` on the character list: split at every single space,
keeping empty segments (consecutive spaces yield empty strings). -/
def jsSplitChars : List Char → List (List Char)
  | [] => [[]]
  | c :: cs =>
      let r := jsSplitChars cs
      if c = ' ' then [] :: r
      else
        match r with
        | [] => [[c]]
        | h :: t => (c :: h) :: t

/-- JS `split(' ')`. -/
def jsSplit (s : String) : List String := (jsSplitChars s.toList).map String.mk

/-- JS `toLowerCase()` on the ASCII range the command names use. -/
def jsToLowerCase (s : String) : String := String.mk (s.toList.map Char.toLower)

/-- JS `a.startsWith(b)`. -/
def jsStartsWith (s p : String) : Bool := List.isPrefixOf p.toList s.toList

/-- Dispatcher state. -/
structure TermState where
  currentLine : String
  commandHistory : List String
  historyIndex : Int
  currentTheme : String
deriving DecidableEq, Repr

/-- Initial refs: empty line, empty history, `historyIndex = -1`, dark theme. -/
def initialTermState : TermState :=
  { currentLine := ""
    commandHistory := []
    historyIndex := -1
    currentTheme := "dark" }

/-- `writeToTerminal(text)` with the default trailing newline. -/
def writeOut (text : String) : String := text ++ "\r\n"

/-- The exact colored prompt written by `showPrompt()`. -/
def promptStr : String :=
  "\x1b[38;2;155;124;255mguest@antec\x1b[0m:\x1b[38;2;139;148;158m~\x1b[0m\x1b[38;2;139;148;158m$\x1b[0m "

/-- The keys of the `themes` object, in insertion order. -/
def themeNames : List String :=
  ["dark", "light", "blue-matrix", "espresso", "green-goblin", "ubuntu"]

/-- `Object.keys(commands)` in insertion order, compound names last. -/
def commandKeys : List String :=
  ["welcome", "help", "about", "clear", "echo", "education", "email", "gui",
   "history", "projects", "pwd", "socials", "themes", "whoami",
   "projects go", "socials go", "themes set"]

/-- `availableCommands` in the Tab handler: the single-token command names
(`!cmd.includes(' ')`). -/
def singleTokenCommands : List String :=
  commandKeys.filter (fun cmd => !cmd.toList.contains ' ')

/-- The ASCII logo template literal in `showWelcome` (leading newline kept). -/
def asciiLogo : String :=
  "\n █████╗ ███╗   ██╗████████╗███████╗ ██████╗\n██╔══██╗████╗  ██║╚══██╔══╝██╔════╝██╔════╝\n███████║██╔██╗ ██║   ██║   █████╗  ██║     \n██╔══██║██║╚██╗██║   ██║   ██╔══╝  ██║     \n██║  ██║██║ ╚████║   ██║   ███████╗╚██████╗\n╚═╝  ╚═╝╚═╝  ╚═══╝   ╚═╝   ╚══════╝ ╚═════╝"

/-- The writes `showWelcome()` performs after `terminal.clear()`. -/
def showWelcomeOut : List String :=
  [writeOut ("\x1b[38;2;155;124;255m" ++ asciiLogo ++ "\x1b[0m"),
   writeOut "",
   writeOut "Welcome to my terminal portfolio. (Version 1.3.1)",
   writeOut "----",
   writeOut "",
   writeOut "This project\x27s source code can be found in this project\x27s \x1b[38;2;6;182;212m\x1b]8;;https://github.com/antik1108/Terminal-Portfolio-ANTEC\x1b\\GitHub repo\x1b]8;;\x1b\\\x1b[0m.",
   writeOut "----",
   writeOut "",
   writeOut "For a list of available commands, type \x27help\x27.",
   writeOut "",
   promptStr]

/-- The `projects go` table (name, url); `window.open(url)` is external. -/
def projectsTable : List String :=
  ["ANTEC Terminal Portfolio", "SnehoAyu (baby-health platform)",
   "Authra (Parcel Management System)"]

/-- The `socials go` table (names; the urls are only opened, never printed). -/
def socialsTable : List String := ["GitHub", "LinkedIn", "Twitter", "Instagram"]

/-- `parseInt(args[0])` on the modelled inputs: a missing or non-numeric
argument is JS `NaN`, rendered `none` here (and printed as `NaN`). -/
def parseIntJs (s : String) : Option Int := s.toInt?

/-- The command handlers: each returns the handler's output string and the
(possibly) updated component state (`themes set` mutates the theme).  Only
names in `commandKeys` are ever looked up; others fall through to `("", s)`. -/
def runCommandHandler (name : String) (args : List String) (s : TermState) :
    String × TermState :=
  if name = "welcome" then ("WELCOME", s)
  else if name = "help" then
    ("about        - about Antik Mondal\nclear        - clear the terminal\necho         - print out anything\neducation    - my education background\nemail        - send an email to me\ngui          - go to my portfolio in GUI\nhelp         - check available commands\nhistory      - view command history\nprojects     - view projects that I\x27ve coded\npwd          - print current working directory\nsocials      - check out my social accounts\nthemes       - check available themes\nwhoami       - about current user\n\nTab or Ctrl + i => autocompletes the command\nUp Arrow => go back to previous command\nCtrl + l => clear the terminal", s)
  else if name = "about" then
    ("Hi, my name is Antik Mondal!\n\nI\x27m a full-stack developer based in India.\nI am passionate about writing codes and\ndeveloping web applications to solve real-life challenges.", s)
  else if name = "clear" then ("CLEAR", s)
  else if name = "echo" then (String.intercalate " " args, s)
  else if name = "education" then
    ("Here is my education background!\n\nB.Tech (Computer Science)\nNewton School of Technology, Rishihood University | 2024 - 2028\n\nHigher Secondary Education\nBankura Banga Vidyalaya | 2022 - 2024", s)
  else if name = "email" then ("antik.mondal2024@nst.rishihood.edu.in", s)
  else if name = "gui" then ("Opening GUI version...", s)
  else if name = "history" then
    (if s.commandHistory.length = 0 then "No commands in history."
     else String.intercalate "\n"
       (s.commandHistory.enum.map (fun p => toString (p.1 + 1) ++ "  " ++ p.2)), s)
  else if name = "projects" then
    ("\"Talk is cheap. Show me the code\"? I got you.\nHere are some of my projects you shouldn\x27t miss\n\n1. ANTEC Terminal Portfolio\n   My personal terminal-style portfolio where I showcase\n   my projects and skills.\n\n2. SnehoAyu (mHealth Platform)\n   A mobile-first health application designed to support mothers\n   of preterm infants through post-NICU care and home-based newborn monitoring.\n\n3. Authra (Parcel Management System)\n   A smart, paperless parcel management system for universities \n   and workplaces with secure logging, notifications, and pickup tracking.\n\n\nUsage: projects go <project-no>\neg: projects go 1", s)
  else if name = "pwd" then ("/home/antik", s)
  else if name = "socials" then
    ("Here are my social links\n\n1. GitHub    - https://github.com/antik1108\n2. LinkedIn  - https://www.linkedin.com/in/antik-t30a04m/\n3. Twitter   - https://x.com/Antik_30\n4. Instagram - https://www.instagram.com/__.vi0letshadow._/\n\nUsage: socials go <social-no>\neg: socials go 1", s)
  else if name = "themes" then
    ("dark light blue-matrix espresso green-goblin ubuntu\n\nUsage: themes set <theme-name>\neg: themes set ubuntu", s)
  else if name = "whoami" then ("guest", s)
  else if name = "projects go" then
    (match parseIntJs (args.getD 0 "") with
     | some n =>
         if 1 ≤ n ∧ n ≤ projectsTable.length then
           "Opening " ++ projectsTable.getD (n.toNat - 1) "" ++ "..."
         else
           "Project " ++ toString n ++
             " not found. Use \x27projects\x27 to see available projects."
     | none =>
         "Project NaN not found. Use \x27projects\x27 to see available projects.", s)
  else if name = "socials go" then
    (match parseIntJs (args.getD 0 "") with
     | some n =>
         if 1 ≤ n ∧ n ≤ socialsTable.length then
           "Opening " ++ socialsTable.getD (n.toNat - 1) "" ++ "..."
         else
           "Social " ++ toString n ++
             " not found. Use \x27socials\x27 to see available socials."
     | none =>
         "Social NaN not found. Use \x27socials\x27 to see available socials.", s)
  else if name = "themes set" then
    -- a missing args[0] is JS `undefined`, printed as the string "undefined"
    (let tn := args.getD 0 "undefined"
     if themeNames.contains tn then
       ("Theme set to " ++ tn, { s with currentTheme := tn })
     else
       ("Theme \x27" ++ tn ++ "\x27 not found. Use \x27themes\x27 to see available themes.",
        s))
  else ("", s)

/-- `processCommand(cmd)`: empty-after-trim input only redraws the prompt;
otherwise push the raw `cmd` onto history, set `historyIndex` to the new
length, then dispatch: compound (two-token) commands first, single commands
next (`CLEAR` clears, `WELCOME` replays the welcome screen), and unmatched
input prints `Command not found`. -/
def processCommand (cmd : String) (s : TermState) : TermState × List String :=
  let trimmed := jsTrim cmd
  if trimmed = "" then (s, [promptStr])
  else
    let s1 : TermState :=
      { s with
        commandHistory := s.commandHistory ++ [cmd]
        historyIndex := (s.commandHistory.length : Int) + 1 }
    let parts := jsSplit trimmed
    let baseCmd := parts.headD ""
    let args := parts.tail
    let compound := baseCmd ++ " " ++ parts.getD 1 ""
    if 2 ≤ parts.length ∧ commandKeys.contains compound then
      let r := runCommandHandler compound (parts.drop 2) s1
      if r.1 = "CLEAR" then (r.2, [promptStr])
      else (r.2, [writeOut r.1, promptStr])
    else if commandKeys.contains baseCmd then
      let r := runCommandHandler baseCmd args s1
      if r.1 = "CLEAR" then (r.2, [promptStr])
      else if r.1 = "WELCOME" then (r.2, showWelcomeOut)
      else (r.2, [writeOut r.1, promptStr])
    else
      (s1, [writeOut ("Command not found: " ++ trimmed), promptStr])

/-- The `terminal.onData` handler, one data chunk at a time, branching on
`data.charCodeAt(0)`: Enter (13) echoes a newline, dispatches the line and
clears it; Backspace (127) deletes; Tab (9) autocompletes only on exactly one
case-insensitive single-token prefix match; Ctrl+L (12) clears and redraws;
Escape (27) handles the arrow-key history recall; printable chars (32..126)
are appended and echoed. -/
def onData (s : TermState) (data : String) : TermState × List String :=
  let code := (data.toList.headD (Char.ofNat 0)).toNat
  if code = 13 then
    let r := processCommand s.currentLine s
    ({ r.1 with currentLine := "" }, "\r\n" :: r.2)
  else if code = 127 then
    if s.currentLine.length > 0 then
      ({ s with currentLine := String.mk s.currentLine.toList.dropLast }, ["\x08 \x08"])
    else (s, [])
  else if code = 9 then
    let ms := singleTokenCommands.filter
      (fun cmd => jsStartsWith cmd (jsToLowerCase s.currentLine))
    if ms.length = 1 then
      let completion := String.mk ((ms.headD "").toList.drop s.currentLine.length)
      ({ s with currentLine := s.currentLine ++ completion }, [completion])
    else (s, [])
  else if code = 12 then
    ({ s with currentLine := "" }, [promptStr])
  else if code = 27 then
    let seq := data.drop 1
    if seq = "[A" then
      if 0 < s.historyIndex then
        let newIdx := s.historyIndex - 1
        let line := s.commandHistory.getD newIdx.toNat ""
        ({ s with historyIndex := newIdx, currentLine := line },
         ["\r\x1b[K", promptStr, line])
      else (s, [])
    else if seq = "[B" then
      if s.historyIndex < (s.commandHistory.length : Int) - 1 then
        let newIdx := s.historyIndex + 1
        let line := s.commandHistory.getD newIdx.toNat ""
        ({ s with historyIndex := newIdx, currentLine := line },
         ["\r\x1b[K", promptStr, line])
      else if s.historyIndex = (s.commandHistory.length : Int) - 1 then
        ({ s with historyIndex := (s.commandHistory.length : Int), currentLine := "" },
         ["\r\x1b[K", promptStr])
      else (s, [])
    else (s, [])
  else if 32 ≤ code ∧ code ≤ 126 then
    ({ s with currentLine := s.currentLine ++ data }, [data])
  else (s, [])

/-- Feed a list of data chunks through `onData`, accumulating the writes. -/
def runTerm : TermState → List String → TermState × List String
  | s, [] => (s, [])
  | s, d :: ds =>
      let r := onData s d
      let rest := runTerm r.1 ds
      (rest.1, r.2 ++ rest.2)

/-- One keystroke per printable character of a string. -/
def keystrokes (s : String) : List String :=
  s.toList.map (fun c => String.mk [c])

/-- Type a command and press Enter. -/
def typeAndEnter (s : String) : List String := keystrokes s ++ ["\r"]

/-! ### C6 theorem -/

/-- C6: from empty history, after submitting `whoami` then `help`: two Up
presses leave the LineBuffer at `whoami`; one further Down leaves it at
`help`; one more Down leaves it empty. -/
theorem history_up_up_down_down_scenario :
    (runTerm initialTermState
      (typeAndEnter "whoami" ++ typeAndEnter "help" ++
        ["\x1b[A", "\x1b[A"])).1.currentLine = "whoami" ∧
    (runTerm initialTermState
      (typeAndEnter "whoami" ++ typeAndEnter "help" ++
        ["\x1b[A", "\x1b[A", "\x1b[B"])).1.currentLine = "help" ∧
    (runTerm initialTermState
      (typeAndEnter "whoami" ++ typeAndEnter "help" ++
        ["\x1b[A", "\x1b[A", "\x1b[B", "\x1b[B"])).1.currentLine = "" := by
  decide

/-! ### C7 theorems -/

/-- C7, counterexample: with LineBuffer `h` the case-insensitive single-token
prefix matches are exactly two (`help`, `history`), yet Tab leaves the state
unchanged and writes NOTHING — no buffer reprint, no space-joined match list,
no prompt redraw — because the source's Tab branch only handles
`matches.length === 1` and has no multi-match branch at all. -/
theorem tab_two_matches_prints_nothing_counterexample :
    (singleTokenCommands.filter (fun cmd => jsStartsWith cmd "h")).length = 2 ∧
    onData { currentLine := "h", commandHistory := [], historyIndex := -1,
             currentTheme := "dark" } "\t"
      = ({ currentLine := "h", commandHistory := [], historyIndex := -1,
           currentTheme := "dark" }, []) := by
  decide

/-- C7, amended: when the current LineBuffer is a case-insensitive prefix of
MORE than one single-token command name, Tab is a complete no-op: the state is
unchanged and nothing is written to the terminal (only the exactly-one-match
case autocompletes). -/
theorem tab_ambiguous_is_noop (s : TermState)
    (h : 2 ≤ (singleTokenCommands.filter
        (fun cmd => jsStartsWith cmd (jsToLowerCase s.currentLine))).length) :
    onData s "\t" = (s, []) := by
  have e9 : ("\t".toList.headD (Char.ofNat 0)).toNat = 9 := rfl
  have hne : ¬((singleTokenCommands.filter
      (fun cmd => jsStartsWith cmd (jsToLowerCase s.currentLine))).length = 1) := by
    omega
  simp [onData, e9, hne]

/-- C7 witness: the buffer `h` against the real command table (2 matches). -/
theorem tab_ambiguous_is_noop_witness :
    onData { currentLine := "h", commandHistory := ["x"], historyIndex := 1,
             currentTheme := "dark" } "\t"
      = ({ currentLine := "h", commandHistory := ["x"], historyIndex := 1,
           currentTheme := "dark" }, []) :=
  tab_ambiguous_is_noop
    { currentLine := "h", commandHistory := ["x"], historyIndex := 1,
      currentTheme := "dark" } (by decide)

/-! ### C10 theorems -/

/-- C10: pressing Enter on a blank (empty or whitespace-only) LineBuffer
leaves `commandHistory` and `historyIndex` untouched and clears the line; the
only terminal output is the echoed newline and the redrawn prompt — in
particular no `Command not found` message and no handler output. -/
theorem enter_blank_line_only_redraws (s : TermState)
    (h : jsTrim s.currentLine = "") :
    onData s "\r" = ({ s with currentLine := "" }, ["\r\n", promptStr]) := by
  have e13 : ("\r".toList.headD (Char.ofNat 0)).toNat = 13 := rfl
  simp [onData, e13, processCommand, h]

/-- C10 witness: Enter on a three-space buffer with existing history. -/
theorem enter_blank_line_only_redraws_witness :
    onData { currentLine := "   ", commandHistory := ["ls"], historyIndex := 1,
             currentTheme := "dark" } "\r"
      = ({ currentLine := "", commandHistory := ["ls"], historyIndex := 1,
           currentTheme := "dark" }, ["\r\n", promptStr]) :=
  enter_blank_line_only_redraws
    { currentLine := "   ", commandHistory := ["ls"], historyIndex := 1,
      currentTheme := "dark" } (by decide)

/-! ## Signup validation (`packages/shared/src/index.js`) and
`AuthCommandHandler.processSignup` (`src/apps/web/src/utils/authCommands.js`)

`validateSignupRequest` composes `validateField` (min/max length, pattern)
with required-field checks and maps the generic messages to the specific
`ERROR_MESSAGES` constants by substring tests on the fixed message strings;
the mapping is embedded here as the equivalent decision chain (min-length
failure ⇒ TOO_SHORT, max-length ⇒ TOO_LONG, otherwise the pattern failure
pushes `VALIDATION.username.message` itself, which matches none of the
substring tests).  Errors are `(field, message)` pairs. -/

/-- The regex class `[a-zA-Z0-9_]` of `VALIDATION.username.pattern`. -/
def isUsernameChar (c : Char) : Bool :=
  ('a' ≤ c && c ≤ 'z') || ('A' ≤ c && c ≤ 'Z') || ('0' ≤ c && c ≤ '9') || c = '_'

/-- `VALIDATION.username.pattern.test`: `/^[a-zA-Z0-9_]+$/`. -/
def usernamePatternTest (s : String) : Bool :=
  !s.toList.isEmpty && s.toList.all isUsernameChar

/-- A character the email regex forbids everywhere: `[^\s@]` complement. -/
def isEmailForbidden (c : Char) : Bool := isJsSpace c || c = '@'

/-- `VALIDATION.email.pattern.test`: `/^[^\s@]+@[^\s@]+\.[^\s@]+$/` — exactly
one `@` (neither side may contain one), a nonempty local part, and a domain
part containing a `.` that is neither its first nor its last character, all
free of whitespace. -/
def emailPatternTest (s : String) : Bool :=
  match s.toList.splitOn '@' with
  | [localPart, domainPart] =>
      !localPart.isEmpty && localPart.all (fun c => !isEmailForbidden c) &&
      domainPart.all (fun c => !isEmailForbidden c) &&
      ((domainPart.drop 1).dropLast.contains '.')
  | _ => false

/-- The data collected by the signup form. -/
structure SignupData where
  username : String
  email : String
  password : String
  confirmPassword : String
deriving DecidableEq, Repr

/-- The `{isValid, errors}` shape `validateSignupRequest` returns. -/
structure ValidationResult where
  isValid : Bool
  errors : List (String × String)
deriving DecidableEq, Repr

/-- The error list built by `validateSignupRequest`, field by field, with the
message mapping applied (`ERROR_MESSAGES` constants inlined). -/
def signupErrors (d : SignupData) : List (String × String) :=
  (if jsTrim d.username = "" then [("username", "Username is required")]
   else if d.username.length < 3 then
     [("username", "Username must be at least 3 characters")]
   else if 50 < d.username.length then
     [("username", "Username must be no more than 50 characters")]
   else if usernamePatternTest d.username = false then
     [("username", "Username must be 3-50 characters, alphanumeric and underscore only")]
   else []) ++
  (if jsTrim d.email = "" then [("email", "Email is required")]
   else if emailPatternTest d.email = false then
     [("email", "Please enter a valid email address")]
   else []) ++
  (if d.password = "" then [("password", "Password is required")]
   else if d.password.length < 8 then
     [("password", "Password must be at least 8 characters")]
   else []) ++
  (if d.confirmPassword = "" then
     [("confirmPassword", "Password confirmation is required")]
   else if d.password ≠ d.confirmPassword then
     [("confirmPassword", "Passwords do not match")]
   else [])

/-- `validateSignupRequest(data)`: `isValid` iff no errors accumulated. -/
def validateSignupRequest (d : SignupData) : ValidationResult :=
  { isValid := (signupErrors d).isEmpty, errors := signupErrors d }

/-- `passwordUtils.validateConfirmation`. -/
def validateConfirmation (password confirmPassword : String) : Bool :=
  password == confirmPassword

/-- What `AuthCommandHandler.processSignup` does with the form data before any
network traffic: the outcome is either a surfaced validation error, a surfaced
confirmation mismatch, or the `auth.signup(formData)` call. -/
inductive SignupOutcome
  | validationError (errors : List (String × String))
  | confirmMismatch
  | signupRequest (data : SignupData)
deriving DecidableEq, Repr

/-- The decision prefix of `processSignup(formData)`: client-side validation
first, then the password-confirmation check, and only then the
`auth.signup` network call. -/
def processSignup (d : SignupData) : SignupOutcome :=
  if (validateSignupRequest d).isValid = false then
    SignupOutcome.validationError (validateSignupRequest d).errors
  else if validateConfirmation d.password d.confirmPassword = false then
    SignupOutcome.confirmMismatch
  else SignupOutcome.signupRequest d

/-- Whether the Credential Service signup endpoint gets invoked. -/
def signupNetworkInvoked (d : SignupData) : Bool :=
  match processSignup d with
  | SignupOutcome.signupRequest _ => true
  | _ => false

/-! ### C8 theorems -/

/-- C8: whenever the collected signup data fails the client-side checks
(required / length / pattern, or the password-confirmation mismatch), the
error is surfaced and `processSignup` performs no network call: the signup
endpoint is never invoked for that submission. -/
theorem invalid_signup_makes_no_network_call (d : SignupData)
    (h : (validateSignupRequest d).isValid = false ∨
         d.password ≠ d.confirmPassword) :
    signupNetworkInvoked d = false := by
  unfold signupNetworkInvoked processSignup
  cases hval : (validateSignupRequest d).isValid with
  | false => simp
  | true =>
      rcases h with h | h
      · simp [hval] at h
      · simp [validateConfirmation, h]

/-- C8 witness: a submission with an empty username (a required-field
failure). -/
theorem invalid_signup_witness :
    signupNetworkInvoked
      { username := "", email := "bob@x.com", password := "Aa1!aaaa",
        confirmPassword := "Aa1!aaaa" } = false :=
  invalid_signup_makes_no_network_call
    { username := "", email := "bob@x.com", password := "Aa1!aaaa",
      confirmPassword := "Aa1!aaaa" } (Or.inl (by decide))

end Antec
